import Mathlib

/-!
Verification of the pymechanical-embedding-examples repository.

The example scripts drive the Ansys Mechanical application; the only
script-level logic is small helpers (tree-printing recursion, a solve-output
guard), the conf.py environment conditional, and the uniform script shape
(solve sites, sphinx asserts, teardown sequences).  Each is shallowly embedded
below, followed by the theorems that settle the claims about them.
-/

set_option maxHeartbeats 1000000

/-! ## The project tree as the `print_tree` helpers observe it

The `print_tree` helpers (examples/basic/fracture_analysis_contact_debonding.py
lines 429-438, examples/basic/topology_optimization_cantilever_beam.py lines
256-265, examples/basic/LSDyna_analysis.py lines 282-294) access three things
on a node: `node.Name`, optionally `node.Suppressed` (guarded by `hasattr`),
and optionally `node.Children` (guarded by `hasattr`, an `is not None` check
and a `Count > 0` check).  A node is therefore embedded as a name, an optional
boolean `Suppressed` attribute (`Option.none` = attribute absent; the helper
only ever compares the attribute with `True`), and a `Children` attribute that
is either absent (outer `Option.none`), present but `None`
(`Option.some Option.none`), or a collection whose `Count` is the list length.
An inductive tree is exactly a tree whose `Children` relation is well founded,
i.e. a finite tree. -/
inductive Node : Type where
  | mk (name : String) (suppressed : Option Bool)
       (children : Option (Option (List Node)))

def Node.name : Node → String
  | .mk n _ _ => n

def Node.suppressed : Node → Option Bool
  | .mk _ s _ => s

def Node.children : Node → Option (Option (List Node))
  | .mk _ _ c => c

mutual

/-- Embeds `print_tree` from
examples/basic/fracture_analysis_contact_debonding.py lines 429-438 (an
identical copy is at examples/basic/topology_optimization_cantilever_beam.py
lines 256-265).  The Python default argument `indentation=""` is supplied at
the single call site `print_tree(root_node)`; `print` output is modelled as
the list of printed lines, and the `for child in node.Children` loop as
`print_forest`. -/
def print_tree : Node → String → List String
  | .mk nodeName _ children, indentation =>
    (indentation ++ "├── " ++ nodeName) ::
    (match children with
     | Option.some (Option.some cs) =>
       if cs.length > 0 then print_forest cs (indentation ++ "|  ") else []
     | _ => [])
termination_by n _ => sizeOf n

/-- The `for child in node.Children: print_tree(child, indentation + "|  ")`
loop of `print_tree`: the lines printed for each child in order.  The
indentation argument is the already-extended `indentation + "|  "`. -/
def print_forest : List Node → String → List String
  | [], _ => []
  | c :: cs, indentation => print_tree c indentation ++ print_forest cs indentation
termination_by cs _ => sizeOf cs

end

mutual

/-- Embeds `print_tree` from examples/basic/LSDyna_analysis.py lines 282-294:
identical to the other copies except that a node whose `Suppressed` attribute
exists and is `True` is printed with the suffix " (Suppressed)". -/
def print_tree_LSDyna : Node → String → List String
  | .mk nodeName suppressed children, indentation =>
    (if suppressed = Option.some true then
       indentation ++ "├── " ++ nodeName ++ " (Suppressed)"
     else indentation ++ "├── " ++ nodeName) ::
    (match children with
     | Option.some (Option.some cs) =>
       if cs.length > 0 then print_forest_LSDyna cs (indentation ++ "|  ") else []
     | _ => [])
termination_by n _ => sizeOf n

/-- The child loop of the LSDyna copy of `print_tree`. -/
def print_forest_LSDyna : List Node → String → List String
  | [], _ => []
  | c :: cs, indentation =>
    print_tree_LSDyna c indentation ++ print_forest_LSDyna cs indentation
termination_by cs _ => sizeOf cs

end

/-- The claim's indentation prefix for depth `d`: `d` copies of `"|  "`. -/
def tree_indent : Nat → String
  | 0 => ""
  | d + 1 => tree_indent d ++ "|  "

mutual

/-- Specification-side description of the traversal (following the claim's
words, to be compared with the source embedding `print_tree`): the depth-first
preorder list of (depth, Name) pairs of the visited nodes, where the children
of a node are visited exactly when the node has a `Children` attribute that is
non-`None` with `Count` greater than zero. -/
def preorder_nodes : Node → Nat → List (Nat × String)
  | .mk nodeName _ children, depth =>
    (depth, nodeName) ::
    (match children with
     | Option.some (Option.some cs) =>
       if cs.length > 0 then preorder_forest cs (depth + 1) else []
     | _ => [])
termination_by n _ => sizeOf n

/-- Preorder visit of a list of siblings at a common depth. -/
def preorder_forest : List Node → Nat → List (Nat × String)
  | [], _ => []
  | c :: cs, depth => preorder_nodes c depth ++ preorder_forest cs depth
termination_by cs _ => sizeOf cs

end

example : print_tree (.mk "Project" Option.none
    (Option.some (Option.some [.mk "Model" Option.none (Option.some Option.none)]))) ""
    = ["├── Project", "|  ├── Model"] := by
  simp [print_tree, print_forest]

example : print_tree_LSDyna (.mk "Project" Option.none
    (Option.some (Option.some [.mk "Body" (Option.some true) (Option.some Option.none)]))) ""
    = ["├── Project", "|  ├── Body (Suppressed)"] := by
  simp [print_tree_LSDyna, print_forest_LSDyna]

/-- The single line the claim says is printed for a node visited at depth `d`:
`d` copies of `"|  "`, then `"├── "`, then the node's Name. -/
def claim_line (p : Nat × String) : String :=
  tree_indent p.1 ++ "├── " ++ p.2

theorem tree_indent_succ (d : Nat) : tree_indent (d + 1) = tree_indent d ++ "|  " :=
  rfl

theorem print_tree_eq_preorder_aux : ∀ k : Nat,
    (∀ n : Node, sizeOf n ≤ k → ∀ d : Nat,
      print_tree n (tree_indent d) = (preorder_nodes n d).map claim_line) ∧
    (∀ cs : List Node, sizeOf cs ≤ k → ∀ d : Nat,
      print_forest cs (tree_indent d) = (preorder_forest cs d).map claim_line) := by
  intro k
  induction k with
  | zero =>
    constructor
    · intro n hn
      obtain ⟨nodeName, suppressed, children⟩ := n
      simp at hn
    · intro cs hcs
      cases cs <;> simp at hcs
  | succ k ih =>
    constructor
    · intro n hn d
      obtain ⟨nodeName, suppressed, children⟩ := n
      rcases children with _ | children
      · simp [print_tree, preorder_nodes, claim_line]
      rcases children with _ | cs
      · simp [print_tree, preorder_nodes, claim_line]
      by_cases hlen : cs.length > 0
      · have hcs : sizeOf cs ≤ k := by
          simp at hn
          omega
        simp only [print_tree, preorder_nodes]
        rw [if_pos hlen, if_pos hlen, List.map_cons, ← tree_indent_succ,
           (ih.2) cs hcs (d + 1)]
        rfl
      · simp [print_tree, preorder_nodes, hlen, claim_line]
    · intro cs hcs d
      cases cs with
      | nil => rw [print_forest, preorder_forest]; rfl
      | cons c cs' =>
        have h1 : sizeOf c ≤ k := by simp at hcs; omega
        have h2 : sizeOf cs' ≤ k := by simp at hcs; omega
        rw [print_forest, preorder_forest, List.map_append,
           (ih.1) c h1 d, (ih.2) cs' h2 d]

/-- C6: `print_tree` prints the tree in depth-first preorder; the node visited
at depth `d` contributes exactly one line, namely `d` copies of `"|  "`
followed by `"├── "` and the node's Name, and children are visited exactly
when the node's `Children` attribute is non-`None` with `Count > 0`
(the condition built into `preorder_nodes`).  Calling `print_tree` with the
indentation for depth `d` (the script calls it with `""`, i.e. depth 0)
prints the `claim_line` of every preorder-visited node in visit order. -/
theorem print_tree_is_preorder (n : Node) (d : Nat) :
    print_tree n (tree_indent d) = (preorder_nodes n d).map claim_line :=
  ((print_tree_eq_preorder_aux (sizeOf n)).1) n (Nat.le_refl _) d

mutual

/-- `true` when no node of the tree has a `Suppressed` attribute equal to
`True` (the condition the LSDyna copy of `print_tree` tests). -/
def no_suppressed : Node → Bool
  | .mk _ suppressed children =>
    (suppressed != Option.some true) &&
    (match children with
     | Option.some (Option.some cs) => no_suppressed_forest cs
     | _ => true)
termination_by n => sizeOf n

/-- `no_suppressed` for every node in a list of siblings. -/
def no_suppressed_forest : List Node → Bool
  | [] => true
  | c :: cs => no_suppressed c && no_suppressed_forest cs
termination_by cs => sizeOf cs

end

theorem print_tree_LSDyna_eq_aux : ∀ k : Nat,
    (∀ n : Node, sizeOf n ≤ k → no_suppressed n = true → ∀ ind : String,
      print_tree_LSDyna n ind = print_tree n ind) ∧
    (∀ cs : List Node, sizeOf cs ≤ k → no_suppressed_forest cs = true → ∀ ind : String,
      print_forest_LSDyna cs ind = print_forest cs ind) := by
  intro k
  induction k with
  | zero =>
    constructor
    · intro n hn
      obtain ⟨nodeName, suppressed, children⟩ := n
      simp at hn
    · intro cs hcs
      cases cs <;> simp at hcs
  | succ k ih =>
    constructor
    · intro n hn hsup ind
      obtain ⟨nodeName, suppressed, children⟩ := n
      rcases children with _ | children
      · simp [no_suppressed] at hsup
        simp [print_tree_LSDyna, print_tree, hsup]
      rcases children with _ | cs
      · simp [no_suppressed] at hsup
        simp [print_tree_LSDyna, print_tree, hsup]
      · simp [no_suppressed] at hsup
        have hcs : sizeOf cs ≤ k := by
          simp at hn
          omega
        by_cases hlen : cs.length > 0
        · simp only [print_tree_LSDyna, print_tree]
          rw [if_pos hlen, if_pos hlen, if_neg (by simp [hsup.1]),
             (ih.2) cs hcs hsup.2 (ind ++ "|  ")]
        · simp [print_tree_LSDyna, print_tree, hlen, hsup.1]
    · intro cs hcs hsup ind
      cases cs with
      | nil => rw [print_forest_LSDyna, print_forest]
      | cons c cs' =>
        have h1 : sizeOf c ≤ k := by simp at hcs; omega
        have h2 : sizeOf cs' ≤ k := by simp at hcs; omega
        simp only [no_suppressed_forest, Bool.and_eq_true] at hsup
        rw [print_forest_LSDyna, print_forest,
           (ih.1) c h1 hsup.1 ind, (ih.2) cs' h2 hsup.2 ind]

/-- C9: the two copies of `print_tree` agree exactly on unsuppressed trees.
On every tree in which no node has a `Suppressed` attribute equal to `True`,
the LSDyna copy and the fracture/cantilever copy print identical output; and
for a node whose `Suppressed` attribute is `True`, the LSDyna copy prints the
node's Name suffixed with " (Suppressed)" on its first line while the other
copy prints the bare Name. -/
theorem print_tree_copies_agree :
    (∀ n : Node, no_suppressed n = true → ∀ ind : String,
      print_tree_LSDyna n ind = print_tree n ind) ∧
    (∀ (n : Node) (ind : String), n.suppressed = Option.some true →
      (print_tree_LSDyna n ind).head? =
        Option.some (ind ++ "├── " ++ n.name ++ " (Suppressed)") ∧
      (print_tree n ind).head? = Option.some (ind ++ "├── " ++ n.name)) := by
  constructor
  · intro n
    exact ((print_tree_LSDyna_eq_aux (sizeOf n)).1) n (Nat.le_refl _)
  · intro n ind hsup
    obtain ⟨nodeName, suppressed, children⟩ := n
    simp [Node.suppressed] at hsup
    subst hsup
    rcases children with _ | (_ | cs) <;>
      exact ⟨by simp [print_tree_LSDyna, Node.name], by simp [print_tree, Node.name]⟩

/-- Witness for C9: concrete evaluations discharging both hypotheses.  The
two-node tree `wA` is unsuppressed, so the copies agree on it; the node `wB`
has `Suppressed = True`, so the copies' first lines differ as stated. -/
theorem print_tree_copies_agree_witness :
    (no_suppressed (Node.mk "Project" Option.none
        (Option.some (Option.some [Node.mk "Model" (Option.some false) Option.none]))) = true ∧
     print_tree_LSDyna (Node.mk "Project" Option.none
        (Option.some (Option.some [Node.mk "Model" (Option.some false) Option.none]))) "" =
       print_tree (Node.mk "Project" Option.none
        (Option.some (Option.some [Node.mk "Model" (Option.some false) Option.none]))) "") ∧
    ((Node.mk "Body" (Option.some true) Option.none).suppressed = Option.some true ∧
     (print_tree_LSDyna (Node.mk "Body" (Option.some true) Option.none) "|  ").head? =
       Option.some ("|  " ++ "├── " ++ "Body" ++ " (Suppressed)") ∧
     (print_tree (Node.mk "Body" (Option.some true) Option.none) "|  ").head? =
       Option.some ("|  " ++ "├── " ++ "Body")) := by
  refine ⟨⟨?_, ?_⟩, ?_, ?_⟩
  · simp [no_suppressed, no_suppressed_forest]
  · exact print_tree_copies_agree.1 _ (by simp [no_suppressed, no_suppressed_forest]) ""
  · simp [Node.suppressed]
  · exact print_tree_copies_agree.2 (Node.mk "Body" (Option.some true) Option.none) "|  "
      (by simp [Node.suppressed])

mutual

/-- The recursion of `print_tree` with an explicit recursion-depth budget:
each recursive call into a child consumes one unit, and an exhausted budget
yields `Option.none`.  This models the unfolding of the Python recursion
without assuming it terminates; `print_tree` terminating on a tree means some
finite budget suffices. -/
def print_tree_fuel : Nat → Node → String → Option (List String)
  | 0, _, _ => Option.none
  | fuel + 1, .mk nodeName _ children, indentation =>
    (match children with
     | Option.some (Option.some cs) =>
       if cs.length > 0 then print_forest_fuel fuel cs (indentation ++ "|  ")
       else Option.some []
     | _ => Option.some []).map
      (fun rest => (indentation ++ "├── " ++ nodeName) :: rest)
termination_by fuel n _ => (fuel, sizeOf n)

/-- The child loop of `print_tree_fuel`. -/
def print_forest_fuel : Nat → List Node → String → Option (List String)
  | _, [], _ => Option.some []
  | fuel, c :: cs, indentation =>
    match print_tree_fuel fuel c indentation,
          print_forest_fuel fuel cs indentation with
    | Option.some l1, Option.some l2 => Option.some (l1 ++ l2)
    | _, _ => Option.none
termination_by fuel cs _ => (fuel, sizeOf cs)

end

mutual

/-- Height of a tree: the recursion depth `print_tree` reaches on it. -/
def Node.height : Node → Nat
  | .mk _ _ children =>
    match children with
    | Option.some (Option.some cs) => forest_height cs + 1
    | _ => 1
termination_by n => sizeOf n

/-- Maximum height over a list of siblings. -/
def forest_height : List Node → Nat
  | [] => 0
  | c :: cs => max (Node.height c) (forest_height cs)
termination_by cs => sizeOf cs

end

theorem print_tree_fuel_aux : ∀ k : Nat,
    (∀ n : Node, sizeOf n ≤ k → ∀ (ind : String) (fuel : Nat), Node.height n ≤ fuel →
      print_tree_fuel fuel n ind = Option.some (print_tree n ind)) ∧
    (∀ cs : List Node, sizeOf cs ≤ k → ∀ (ind : String) (fuel : Nat),
      forest_height cs ≤ fuel →
      print_forest_fuel fuel cs ind = Option.some (print_forest cs ind)) := by
  intro k
  induction k with
  | zero =>
    constructor
    · intro n hn
      obtain ⟨nodeName, suppressed, children⟩ := n
      simp at hn
    · intro cs hcs
      cases cs <;> simp at hcs
  | succ k ih =>
    constructor
    · intro n hn ind fuel hfuel
      obtain ⟨nodeName, suppressed, children⟩ := n
      rcases children with _ | (_ | cs)
      · have h1 : 1 ≤ fuel := le_trans (by simp [Node.height]) hfuel
        obtain ⟨f, rfl⟩ := Nat.exists_eq_add_of_le h1
        simp [print_tree_fuel, print_tree, Nat.add_comm 1 f]
      · have h1 : 1 ≤ fuel := le_trans (by simp [Node.height]) hfuel
        obtain ⟨f, rfl⟩ := Nat.exists_eq_add_of_le h1
        simp [print_tree_fuel, print_tree, Nat.add_comm 1 f]
      · have h1 : 1 ≤ fuel := le_trans (by simp [Node.height]) hfuel
        obtain ⟨f, rfl⟩ := Nat.exists_eq_add_of_le h1
        have hcs : sizeOf cs ≤ k := by simp at hn; omega
        have hfh : forest_height cs ≤ f := by
          simp [Node.height] at hfuel
          omega
        rw [Nat.add_comm 1 f]
        by_cases hlen : cs.length > 0
        · simp only [print_tree_fuel, print_tree]
          rw [if_pos hlen, if_pos hlen,
             (ih.2) cs hcs (ind ++ "|  ") f hfh]
          rfl
        · simp [print_tree_fuel, print_tree, hlen]
    · intro cs hcs ind fuel hfuel
      cases cs with
      | nil => rw [print_forest_fuel, print_forest]
      | cons c cs' =>
        have h1 : sizeOf c ≤ k := by simp at hcs; omega
        have h2 : sizeOf cs' ≤ k := by simp at hcs; omega
        have hhc : Node.height c ≤ fuel := by
          rw [forest_height] at hfuel
          omega
        have hhcs : forest_height cs' ≤ fuel := by
          rw [forest_height] at hfuel
          omega
        rw [print_forest_fuel, print_forest,
           (ih.1) c h1 ind fuel hhc, (ih.2) cs' h2 ind fuel hhcs]

/-- C10: `print_tree` terminates on every finite tree.  The inductive type
`Node` is exactly the trees whose `Children` relation is well founded, and on
every such tree the fuel-indexed unfolding `print_tree_fuel` of the recursion
completes (returns `Option.some`) once the budget reaches the tree's height,
producing the lines of the total function `print_tree`. -/
theorem print_tree_terminates (n : Node) (ind : String) :
    print_tree_fuel (Node.height n) n ind = Option.some (print_tree n ind) :=
  ((print_tree_fuel_aux (sizeOf n)).1) n (Nat.le_refl _) ind (Node.height n)
    (Nat.le_refl _)

/-! ## Solve invocations and the sphinx-gallery status asserts

Every `.Solve(...)` call in the example scripts (found by searching
`.Solve(` over examples/; the only other occurrence is a commented-out line in
examples/basic/bolt_pretension.py) is recorded with its wait argument and
whether the script runs a post-solve status assert on the corresponding
solution. -/

/-- The external solver status enum as the scripts observe it: `Done` is the
successful terminal value and the enum carries further non-terminal and error
values (this value set belongs to the external Ansys `SolutionStatusType`
interface, not to repository code; the scripts only ever compare a status
against `Done`). -/
inductive SolutionStatusType : Type where
  | Done
  | SolveRequired
  | InProgress
  | Error
deriving DecidableEq

/-- Python `str(...)` of a status value: the enum member's name. -/
def statusStr : SolutionStatusType → String
  | SolutionStatusType.Done => "Done"
  | SolutionStatusType.SolveRequired => "SolveRequired"
  | SolutionStatusType.InProgress => "InProgress"
  | SolutionStatusType.Error => "Error"

/-- Outcome of executing a Python `assert cond, msg` statement. -/
inductive AssertOutcome : Type where
  | ok
  | assertionError (msg : String)
deriving DecidableEq

/-- Python `assert cond, msg`. -/
def pyAssert (cond : Bool) (msg : String) : AssertOutcome :=
  if cond then AssertOutcome.ok else AssertOutcome.assertionError msg

/-- The enum form of the post-solve assert, e.g. examples/01_basic/valve.py
line 209: `assert solution.Status == SolutionStatusType.Done` with message
`Solution status is not 'Done'` (the quotes of the source message string are
kept out of the embedded constant). -/
def statusAssertEnum (s : SolutionStatusType) : AssertOutcome :=
  pyAssert (s == SolutionStatusType.Done) "Solution status is not Done"

/-- The string form of the post-solve assert, e.g. examples/basic/valve.py
line 152: `assert str(solution.Status) == "Done"`, same message. -/
def statusAssertStr (s : SolutionStatusType) : AssertOutcome :=
  pyAssert (statusStr s == "Done") "Solution status is not Done"

/-- One `.Solve(...)` invocation in an example script: script path, line
number, the wait argument passed (`Option.none` = called with no argument)
and whether a status assert on the corresponding solution follows the call
in the script. -/
structure SolveSite where
  script : String
  line : Nat
  waitArg : Option Bool
  statusAssertFollows : Bool
deriving DecidableEq

/-- All `.Solve` invocations in the example scripts, in path order.  Note on
shape_optimization_bracket_model.py: the assert at its line 277 re-tests the
stale snapshot `STAT_STRUC_SS` captured at line 180 after the first solve
(line 179); the second solve's status (`STAT_SHAPE_SS`, line 274) is never
asserted, so the line-273 site records no status assert on its own
solution. -/
def solveSites : List SolveSite := [
  ⟨"examples/02_technology_showcase/Rotor_Blade_Inverse_solve.py", 565,
    Option.some true, false⟩,
  ⟨"examples/02_technology_showcase/conact_wear_simulation.py", 392,
    Option.some true, true⟩,
  ⟨"examples/02_technology_showcase/contact_wear_simulation.py", 732,
    Option.some true, true⟩,
  ⟨"examples/02_technology_showcase/non_linear_analsis_rubber_boot_seal.py", 494,
    Option.some true, true⟩,
  ⟨"examples/02_technology_showcase/prestressed_modal_cyclic_symmetry_analysis.py", 376,
    Option.some true, true⟩,
  ⟨"examples/02_technology_showcase/prestressed_modal_cyclic_symmetry_analysis.py", 464,
    Option.some true, true⟩,
  ⟨"examples/02_technology_showcase/prestressed_modal_cyclic_symmetry_analysis.py", 549,
    Option.some true, true⟩,
  ⟨"examples/02_technology_showcase/prestressed_modal_cyclic_symmetry_analysis.py", 644,
    Option.some true, true⟩,
  ⟨"examples/02_technology_showcase/shape_optimization_bracket_model.py", 179,
    Option.some true, true⟩,
  ⟨"examples/02_technology_showcase/shape_optimization_bracket_model.py", 273,
    Option.some true, false⟩,
  ⟨"examples/technology_showcase/topology_optimization_cantilever.py", 31,
    Option.none, false⟩,
  ⟨"examples/technology_showcase/topology_optimization_cantilever.py", 121,
    Option.some true, false⟩,
  ⟨"examples/01_basic/harmonic_acoustics.py", 489, Option.some true, true⟩,
  ⟨"examples/01_basic/modal_acoustics_analysis.py", 502, Option.some true, true⟩,
  ⟨"examples/01_basic/steady_state_thermal_analysis.py", 419, Option.some true, true⟩,
  ⟨"examples/01_basic/topology_optimization_cantilever_beam.py", 144,
    Option.some true, true⟩,
  ⟨"examples/01_basic/topology_optimization_cantilever_beam.py", 219,
    Option.some true, true⟩,
  ⟨"examples/01_basic/valve.py", 206, Option.some true, true⟩,
  ⟨"examples/basic/LSDyna_analysis.py", 214, Option.some true, true⟩,
  ⟨"examples/basic/contact_debonding.py", 274, Option.some true, false⟩,
  ⟨"examples/basic/fracture_analysis_contact_debonding.py", 336,
    Option.some true, true⟩,
  ⟨"examples/basic/modal_acoustics.py", 361, Option.some true, false⟩,
  ⟨"examples/basic/steady_state_thermal_analysis.py", 338, Option.some true, true⟩,
  ⟨"examples/basic/topology_optimization_cantilever.py", 47, Option.some true, true⟩,
  ⟨"examples/basic/topology_optimization_cantilever.py", 145, Option.some true, true⟩,
  ⟨"examples/basic/topology_optimization_cantilever_beam.py", 68,
    Option.some true, true⟩,
  ⟨"examples/basic/topology_optimization_cantilever_beam.py", 167,
    Option.some true, true⟩,
  ⟨"examples/basic/valve.py", 149, Option.some true, true⟩]

/-- C1 counterexample: the solve invocation at
examples/basic/contact_debonding.py line 274 is followed by no status assert
(the script reads result values directly after `Solve`), so it is not the case
that every solve invocation is followed by a Done assertion. -/
theorem solve_assert_counterexample :
    SolveSite.mk "examples/basic/contact_debonding.py" 274 (Option.some true) false
      ∈ solveSites ∧
    (SolveSite.mk "examples/basic/contact_debonding.py" 274 (Option.some true)
      false).statusAssertFollows = false ∧
    ¬ ∀ s ∈ solveSites, s.statusAssertFollows = true := by
  refine ⟨by decide, rfl, fun h => ?_⟩
  have := h (SolveSite.mk "examples/basic/contact_debonding.py" 274
    (Option.some true) false) (by decide)
  simp at this

/-- C1 (amended): after every solve invocation the script asserts that that
solution's post-solve status equals Done, except at six sites —
Rotor_Blade_Inverse_solve.py line 565, shape_optimization_bracket_model.py
line 273 (the assert after it re-tests the stale first-solve snapshot, not
this solve's status), both solves of
technology_showcase/topology_optimization_cantilever.py,
basic/contact_debonding.py line 274 and basic/modal_acoustics.py line 361 —
which have no status assert on their own solution; and each form of the
assertion succeeds exactly when the status is Done and yields an
AssertionError for every other status value. -/
theorem solve_assert_amended :
    (∀ s ∈ solveSites, s.statusAssertFollows = true ∨
      (s.script, s.line) ∈ [
        ("examples/02_technology_showcase/Rotor_Blade_Inverse_solve.py", 565),
        ("examples/02_technology_showcase/shape_optimization_bracket_model.py", 273),
        ("examples/technology_showcase/topology_optimization_cantilever.py", 31),
        ("examples/technology_showcase/topology_optimization_cantilever.py", 121),
        ("examples/basic/contact_debonding.py", 274),
        ("examples/basic/modal_acoustics.py", 361)]) ∧
    (∀ st : SolutionStatusType,
      (statusAssertEnum st = AssertOutcome.ok ↔ st = SolutionStatusType.Done) ∧
      (statusAssertStr st = AssertOutcome.ok ↔ st = SolutionStatusType.Done) ∧
      (st ≠ SolutionStatusType.Done →
        statusAssertEnum st =
          AssertOutcome.assertionError "Solution status is not Done" ∧
        statusAssertStr st =
          AssertOutcome.assertionError "Solution status is not Done")) := by
  constructor
  · decide
  · intro st
    cases st <;> simp [statusAssertEnum, statusAssertStr, statusStr, pyAssert]

/-- Witness for the amended C1, at the valve.py solve site and the Error
status. -/
theorem solve_assert_amended_witness :
    ((SolveSite.mk "examples/01_basic/valve.py" 206 (Option.some true)
        true).statusAssertFollows = true ∨
      ((SolveSite.mk "examples/01_basic/valve.py" 206 (Option.some true)
          true).script,
       (SolveSite.mk "examples/01_basic/valve.py" 206 (Option.some true)
          true).line) ∈ [
        ("examples/02_technology_showcase/Rotor_Blade_Inverse_solve.py", 565),
        ("examples/02_technology_showcase/shape_optimization_bracket_model.py", 273),
        ("examples/technology_showcase/topology_optimization_cantilever.py", 31),
        ("examples/technology_showcase/topology_optimization_cantilever.py", 121),
        ("examples/basic/contact_debonding.py", 274),
        ("examples/basic/modal_acoustics.py", 361)]) ∧
    (statusAssertEnum SolutionStatusType.Error =
        AssertOutcome.assertionError "Solution status is not Done" ∧
      statusAssertStr SolutionStatusType.Error =
        AssertOutcome.assertionError "Solution status is not Done") :=
  ⟨solve_assert_amended.1
      (SolveSite.mk "examples/01_basic/valve.py" 206 (Option.some true) true)
      (by decide),
   (solve_assert_amended.2 SolutionStatusType.Error).2.2 (by decide)⟩

/-- C4 counterexample: the invocation `structural_analysis.Solve()` at
examples/technology_showcase/topology_optimization_cantilever.py line 31
passes no wait argument at all, so it is not the case that every solve
invocation supplies a wait flag set to True. -/
theorem solve_wait_counterexample :
    SolveSite.mk "examples/technology_showcase/topology_optimization_cantilever.py"
      31 Option.none false ∈ solveSites ∧
    (SolveSite.mk "examples/technology_showcase/topology_optimization_cantilever.py"
      31 Option.none false).waitArg ≠ Option.some true := by
  exact ⟨by decide, by decide⟩

/-- C4 (amended): every solve invocation in the example scripts supplies the
boolean wait flag True, except `structural_analysis.Solve()` at
examples/technology_showcase/topology_optimization_cantilever.py line 31,
which passes no argument. -/
theorem solve_wait_amended :
    ∀ s ∈ solveSites, s.waitArg = Option.some true ∨
      (s.script = "examples/technology_showcase/topology_optimization_cantilever.py"
        ∧ s.line = 31 ∧ s.waitArg = Option.none) := by
  decide

/-- Witness for the amended C4 at the valve.py solve site. -/
theorem solve_wait_amended_witness :
    (SolveSite.mk "examples/01_basic/valve.py" 206 (Option.some true)
        true).waitArg = Option.some true ∨
      ((SolveSite.mk "examples/01_basic/valve.py" 206 (Option.some true)
          true).script =
          "examples/technology_showcase/topology_optimization_cantilever.py" ∧
        (SolveSite.mk "examples/01_basic/valve.py" 206 (Option.some true)
          true).line = 31 ∧
        (SolveSite.mk "examples/01_basic/valve.py" 206 (Option.some true)
          true).waitArg = Option.none) :=
  solve_wait_amended
    (SolveSite.mk "examples/01_basic/valve.py" 206 (Option.some true) true)
    (by decide)

/-! ## Script teardown sequences -/

/-- A cleanup call an example script makes at its end: `app.save(path)`
(recorded with the project file's base name), `app.new()`, `app.close()`, or
`delete_downloads()`. -/
inductive TeardownEvent : Type where
  | save (file : String)
  | new
  | close
  | deleteDownloads
deriving DecidableEq

/-- The teardown call sequence at the end of each of the 26 example scripts,
read off each script's final cleanup section. -/
def teardowns : List (String × List TeardownEvent) := [
  ("examples/00_tips/tips_01.py",
    [TeardownEvent.deleteDownloads, TeardownEvent.new]),
  ("examples/00_tips/tips_02.py",
    [TeardownEvent.deleteDownloads, TeardownEvent.new]),
  ("examples/00_tips/tips_03.py",
    [TeardownEvent.deleteDownloads, TeardownEvent.new]),
  ("examples/00_tips/tips_04.py",
    [TeardownEvent.deleteDownloads, TeardownEvent.new]),
  ("examples/00_tips/tips_05.py", [TeardownEvent.new]),
  ("examples/01_basic/harmonic_acoustics.py",
    [TeardownEvent.save "harmnonic_acoustics.mechdat", TeardownEvent.new,
     TeardownEvent.deleteDownloads]),
  ("examples/01_basic/modal_acoustics_analysis.py",
    [TeardownEvent.save "modal_acoustics.mechdat", TeardownEvent.new,
     TeardownEvent.deleteDownloads]),
  ("examples/01_basic/steady_state_thermal_analysis.py",
    [TeardownEvent.save "steady_state_thermal.mechdat", TeardownEvent.new,
     TeardownEvent.deleteDownloads]),
  ("examples/01_basic/topology_optimization_cantilever_beam.py",
    [TeardownEvent.save "cantilever_beam_topology_optimization.mechdat",
     TeardownEvent.new, TeardownEvent.deleteDownloads]),
  ("examples/01_basic/valve.py",
    [TeardownEvent.save "valve.mechdat", TeardownEvent.new,
     TeardownEvent.deleteDownloads]),
  ("examples/02_technology_showcase/Rotor_Blade_Inverse_solve.py",
    [TeardownEvent.save "blade_inverse.mechdat", TeardownEvent.new,
     TeardownEvent.deleteDownloads]),
  ("examples/02_technology_showcase/conact_wear_simulation.py",
    [TeardownEvent.save "contact_wear.mechdat", TeardownEvent.new,
     TeardownEvent.deleteDownloads]),
  ("examples/02_technology_showcase/contact_wear_simulation.py",
    [TeardownEvent.save "contact_wear.mechdat", TeardownEvent.close,
     TeardownEvent.deleteDownloads]),
  ("examples/02_technology_showcase/non_linear_analsis_rubber_boot_seal.py",
    [TeardownEvent.save "non_linear_rubber_boot_seal.mechdat", TeardownEvent.new,
     TeardownEvent.deleteDownloads]),
  ("examples/02_technology_showcase/prestressed_modal_cyclic_symmetry_analysis.py",
    [TeardownEvent.close, TeardownEvent.deleteDownloads]),
  ("examples/02_technology_showcase/shape_optimization_bracket_model.py",
    [TeardownEvent.save "shape-optimization.mechdat", TeardownEvent.new,
     TeardownEvent.deleteDownloads]),
  ("examples/basic/LSDyna_analysis.py",
    [TeardownEvent.save "lsdyna_analysis.mechdat", TeardownEvent.new,
     TeardownEvent.deleteDownloads]),
  ("examples/basic/bolt_pretension.py",
    [TeardownEvent.save "bolt_pretension.mechdat", TeardownEvent.new,
     TeardownEvent.deleteDownloads]),
  ("examples/basic/contact_debonding.py",
    [TeardownEvent.save "debonding.mechdat", TeardownEvent.new,
     TeardownEvent.deleteDownloads]),
  ("examples/basic/fracture_analysis_contact_debonding.py",
    [TeardownEvent.save "contact_debonding.mechdat", TeardownEvent.new,
     TeardownEvent.deleteDownloads]),
  ("examples/basic/modal_acoustics.py",
    [TeardownEvent.save "modal_acou.mechdat", TeardownEvent.new,
     TeardownEvent.deleteDownloads]),
  ("examples/basic/steady_state_thermal_analysis.py",
    [TeardownEvent.save "Steady_State_Thermal.mechdat", TeardownEvent.new,
     TeardownEvent.deleteDownloads]),
  ("examples/basic/topology_optimization_cantilever.py",
    [TeardownEvent.save "cantilever_topology_optimization.mechdat",
     TeardownEvent.new, TeardownEvent.deleteDownloads]),
  ("examples/basic/topology_optimization_cantilever_beam.py",
    [TeardownEvent.save "cantilever_beam_topology_optimization.mechdat",
     TeardownEvent.new, TeardownEvent.deleteDownloads]),
  ("examples/basic/valve.py",
    [TeardownEvent.save "Valve.mechdat", TeardownEvent.new,
     TeardownEvent.deleteDownloads]),
  ("examples/technology_showcase/topology_optimization_cantilever.py",
    [TeardownEvent.save "cantilever_topology_optimization.mechdat",
     TeardownEvent.new, TeardownEvent.deleteDownloads])]

/-- The teardown shape the claim describes: save the project file, then reset
the in-memory model state via `new()`, then delete the downloaded fixtures,
in this order. -/
def teardown_save_new_delete : List TeardownEvent → Bool
  | [TeardownEvent.save _, TeardownEvent.new, TeardownEvent.deleteDownloads] => true
  | _ => false

/-- C2 counterexample: examples/00_tips/tips_01.py ends by deleting the
downloaded fixtures and then calling `new()`, with no save at all, so not
every example script's teardown is save, then `new()`, then delete. -/
theorem teardown_counterexample :
    ("examples/00_tips/tips_01.py",
      [TeardownEvent.deleteDownloads, TeardownEvent.new]) ∈ teardowns ∧
    teardown_save_new_delete
      [TeardownEvent.deleteDownloads, TeardownEvent.new] = false := by
  decide

/-- C2 (amended): 19 of the 26 example scripts tear down in the order save the
project file, reset via `new()`, delete the downloaded fixtures; the
exceptions are tips_01 to tips_04 (delete then `new()`, no save), tips_05
(only `new()`), contact_wear_simulation.py (save, then `close()` instead of
`new()`, then delete) and prestressed_modal_cyclic_symmetry_analysis.py
(`close()` then delete, no final save). -/
theorem teardown_amended :
    ∀ p ∈ teardowns, teardown_save_new_delete p.2 = true ∨
      (p.1 ∈ ["examples/00_tips/tips_01.py", "examples/00_tips/tips_02.py",
          "examples/00_tips/tips_03.py", "examples/00_tips/tips_04.py"] ∧
        p.2 = [TeardownEvent.deleteDownloads, TeardownEvent.new]) ∨
      (p.1 = "examples/00_tips/tips_05.py" ∧ p.2 = [TeardownEvent.new]) ∨
      (p.1 = "examples/02_technology_showcase/contact_wear_simulation.py" ∧
        p.2 = [TeardownEvent.save "contact_wear.mechdat", TeardownEvent.close,
          TeardownEvent.deleteDownloads]) ∨
      (p.1 = "examples/02_technology_showcase/prestressed_modal_cyclic_symmetry_analysis.py"
        ∧ p.2 = [TeardownEvent.close, TeardownEvent.deleteDownloads]) := by
  decide

/-- Witness for the amended C2 at the valve.py teardown. -/
theorem teardown_amended_witness :
    teardown_save_new_delete
      [TeardownEvent.save "valve.mechdat", TeardownEvent.new,
       TeardownEvent.deleteDownloads] = true ∨
      (("examples/01_basic/valve.py",
          [TeardownEvent.save "valve.mechdat", TeardownEvent.new,
           TeardownEvent.deleteDownloads]).1 ∈
          ["examples/00_tips/tips_01.py", "examples/00_tips/tips_02.py",
           "examples/00_tips/tips_03.py", "examples/00_tips/tips_04.py"] ∧
        [TeardownEvent.save "valve.mechdat", TeardownEvent.new,
          TeardownEvent.deleteDownloads] =
          [TeardownEvent.deleteDownloads, TeardownEvent.new]) ∨
      (("examples/01_basic/valve.py",
          [TeardownEvent.save "valve.mechdat", TeardownEvent.new,
           TeardownEvent.deleteDownloads]).1 = "examples/00_tips/tips_05.py" ∧
        [TeardownEvent.save "valve.mechdat", TeardownEvent.new,
          TeardownEvent.deleteDownloads] = [TeardownEvent.new]) ∨
      (("examples/01_basic/valve.py",
          [TeardownEvent.save "valve.mechdat", TeardownEvent.new,
           TeardownEvent.deleteDownloads]).1 =
          "examples/02_technology_showcase/contact_wear_simulation.py" ∧
        [TeardownEvent.save "valve.mechdat", TeardownEvent.new,
          TeardownEvent.deleteDownloads] =
          [TeardownEvent.save "contact_wear.mechdat", TeardownEvent.close,
           TeardownEvent.deleteDownloads]) ∨
      (("examples/01_basic/valve.py",
          [TeardownEvent.save "valve.mechdat", TeardownEvent.new,
           TeardownEvent.deleteDownloads]).1 =
          "examples/02_technology_showcase/prestressed_modal_cyclic_symmetry_analysis.py"
        ∧ [TeardownEvent.save "valve.mechdat", TeardownEvent.new,
            TeardownEvent.deleteDownloads] =
            [TeardownEvent.close, TeardownEvent.deleteDownloads]) := by
  have h := teardown_amended
    ("examples/01_basic/valve.py",
      [TeardownEvent.save "valve.mechdat", TeardownEvent.new,
       TeardownEvent.deleteDownloads]) (by decide)
  exact h

/-! ## doc/source/conf.py gallery solver configuration -/

/-- The fields of the "My Computer" solve configuration's process settings
that doc/source/conf.py touches. -/
structure SolveProcessSettings where
  maxNumberOfCores : Nat
  distributeSolution : Bool
deriving DecidableEq

/-- Embeds doc/source/conf.py lines 132-136: when the variable
`PYMECHANICAL_BUILDING_GALLERY_GITHUB` is present in the process environment
(`env` is the membership predicate over defined variable names), the block
sets `MaxNumberOfCores = 1` and `DistributeSolution = False` on the
"My Computer" solve configuration; otherwise the block does not run. -/
def gallery_configure (env : String → Bool) (config : SolveProcessSettings) :
    SolveProcessSettings :=
  if env "PYMECHANICAL_BUILDING_GALLERY_GITHUB" then
    SolveProcessSettings.mk 1 false
  else config

/-- C3: for every process environment, the documentation-build configuration
sets MaxNumberOfCores to 1 and DistributeSolution to False on the solve
configuration exactly when `PYMECHANICAL_BUILDING_GALLERY_GITHUB` is present
in the environment, and leaves the configuration unchanged when it is
absent. -/
theorem gallery_configure_iff_env (env : String → Bool)
    (config : SolveProcessSettings) :
    (env "PYMECHANICAL_BUILDING_GALLERY_GITHUB" = true →
      gallery_configure env config = SolveProcessSettings.mk 1 false) ∧
    (env "PYMECHANICAL_BUILDING_GALLERY_GITHUB" = false →
      gallery_configure env config = config) := by
  constructor
  · intro h
    simp [gallery_configure, h]
  · intro h
    simp [gallery_configure, h]

/-- Witness for C3: a CI-like environment containing the variable yields the
single-core non-distributed settings, and the empty environment leaves a
4-core distributed configuration unchanged. -/
theorem gallery_configure_iff_env_witness :
    gallery_configure (fun v => v == "PYMECHANICAL_BUILDING_GALLERY_GITHUB")
      (SolveProcessSettings.mk 4 true) = SolveProcessSettings.mk 1 false ∧
    gallery_configure (fun _ => false) (SolveProcessSettings.mk 4 true) =
      SolveProcessSettings.mk 4 true :=
  ⟨(gallery_configure_iff_env
      (fun v => v == "PYMECHANICAL_BUILDING_GALLERY_GITHUB")
      (SolveProcessSettings.mk 4 true)).1 (by decide),
   (gallery_configure_iff_env (fun _ => false)
      (SolveProcessSettings.mk 4 true)).2 rfl⟩

/-! ## The display-output-from-solve guard -/

/-- Python truthiness of a string: non-empty strings are truthy. -/
def pyTruthy (s : String) : Bool := s != ""

/-- Python `os.path.join(a, b)` for a relative second component `b`: `b` when
`a` is empty, otherwise `a` and `b` joined with the separator unless `a`
already ends with it (posix separator shown; only the separator character
differs on Windows). -/
def os_path_join (a b : String) : String :=
  if a = "" then b
  else if a.endsWith "/" then a ++ b
  else a ++ "/" ++ b

/-- Embeds the display-output-from-solve section of
examples/01_basic/valve.py lines 312-315:
`solve_out_path = solve_path + "solve.out"` followed by the guard
`if solve_out_path:`.  Returns the computed path and whether the guarded
branch (opening and printing the solve output file) runs. -/
def solve_out_display_concat (solve_path : String) : String × Bool :=
  let solve_out_path := solve_path ++ "solve.out"
  (solve_out_path, pyTruthy solve_out_path)

/-- Embeds the same section in its `os.path.join` form,
examples/basic/fracture_analysis_contact_debonding.py lines 419-422:
`solve_out_path = os.path.join(solve_path, "solve.out")` then
`if solve_out_path:`. -/
def solve_out_display_join (solve_path : String) : String × Bool :=
  let solve_out_path := os_path_join solve_path "solve.out"
  (solve_out_path, pyTruthy solve_out_path)

theorem append_solve_out_ne_empty (s : String) : s ++ "solve.out" ≠ "" := by
  intro h
  have hlen : (s ++ "solve.out").length = 0 := by rw [h]; rfl
  rw [String.length_append] at hlen
  have h9 : ("solve.out" : String).length = 9 := by decide
  omega

/-- C8: the `if solve_out_path:` guard is always true — in both the string
concatenation form and the `os.path.join` form, `solve_out_path` ends with
the non-empty literal `solve.out` and is therefore a non-empty (truthy)
string for every working directory, so the script unconditionally attempts
to open and print the solve output file. -/
theorem solve_out_guard_always_true (solve_path : String) :
    (solve_out_display_concat solve_path).2 = true ∧
    (solve_out_display_join solve_path).2 = true := by
  constructor
  · simp [solve_out_display_concat, pyTruthy, append_solve_out_ne_empty]
  · simp only [solve_out_display_join, os_path_join, pyTruthy]
    by_cases h0 : solve_path = ""
    · simp [h0]
    by_cases h1 : solve_path.endsWith "/"
    · simp [h0, h1, append_solve_out_ne_empty]
    · simp [h0, h1, append_solve_out_ne_empty]

/-! ## Fixture download cache

The fixture helpers `download_file` and `delete_downloads` live in
`ansys.mechanical.core.examples`, outside this repository; the cache
behaviour is therefore modelled from the spec. -/

/-- Modelled from the spec: the local fixture cache state behind
`download_file` (from `ansys.mechanical.core.examples`, code missing from
this repository) — the set of (filename, product, category) triples whose
files already exist in the local cache directory. -/
structure FixtureCache where
  cached : List (String × String × String)
deriving DecidableEq

/-- Modelled from the spec: `download_file(filename, product, category)`
(from `ansys.mechanical.core.examples`, code missing from this repository)
returns the "local filesystem path to the cached file" and "downloads over
HTTP if not already cached".  The result is the new cache state, the returned
local path (cache layout `product/category/filename`), and whether an HTTP
download was performed. -/
def download_file (c : FixtureCache) (filename product category : String) :
    FixtureCache × String × Bool :=
  let path := product ++ "/" ++ category ++ "/" ++ filename
  if (filename, product, category) ∈ c.cached then (c, path, false)
  else (FixtureCache.mk ((filename, product, category) :: c.cached), path, true)

/-- C7: fixture download is idempotent.  For every cache state and
(filename, product, category) triple, a second `download_file` request right
after the first finds the file cached: it performs no HTTP download, returns
the same local path the first request returned, and leaves the cache
unchanged. -/
theorem download_file_idempotent (c : FixtureCache)
    (filename product category : String) :
    download_file (download_file c filename product category).1
        filename product category =
      ((download_file c filename product category).1,
       (download_file c filename product category).2.1, false) := by
  simp only [download_file]
  by_cases h : (filename, product, category) ∈ c.cached
  · simp [h]
  · simp [h]

/-! ## Straight-line script execution and exception propagation -/

/-- A statement of an example script at the granularity the error-handling
claims need: `stmt label` is any straight-line statement (a fixture download,
a `GetObjectsByName(...)[0]` lookup, any other API call or assignment),
identified by a label, and `tryExcept body handler` is a Python try/except
statement — present in the language in order to express its absence: no
example script contains one. -/
inductive Stmt : Type where
  | stmt (label : String)
  | tryExcept (body handler : List Stmt)

/-- Executes a script given an oracle `raises` telling which statements raise
an exception when executed (a missing fixture makes its download raise, an
empty name query makes the `[0]` indexing raise an IndexError, a bad API call
raises, and so on).  Returns the label of the first uncaught raising
statement — the exception that aborts the script — or `Option.none` when the
script runs to completion.  As in Python, a `tryExcept` runs its handler when
its body raises, and an exception escaping the handler propagates. -/
def runScript (raises : String → Bool) : List Stmt → Option String
  | [] => Option.none
  | Stmt.stmt l :: rest =>
    if raises l then Option.some l else runScript raises rest
  | Stmt.tryExcept body handler :: rest =>
    match runScript raises body with
    | Option.none => runScript raises rest
    | Option.some _ =>
      match runScript raises handler with
      | Option.none => runScript raises rest
      | Option.some l => Option.some l

/-- `true` when the statement list contains no try/except statement. -/
def noHandlers : List Stmt → Bool
  | [] => true
  | Stmt.stmt _ :: rest => noHandlers rest
  | Stmt.tryExcept _ _ :: _ => false

/-- The statements of examples/00_tips/tips_01.py, in order (lines 20-56). -/
def tips_01_stmts : List Stmt := [
  Stmt.stmt "app = App(globals=globals())",
  Stmt.stmt "print(app)",
  Stmt.stmt "geometry_path = download_file(Valve.pmdb, pymechanical, embedding)",
  Stmt.stmt "model = app.Model",
  Stmt.stmt "geometry_import = model.GeometryImportGroup.AddGeometryImport()",
  Stmt.stmt "geometry_import.Import(geometry_path)",
  Stmt.stmt "app.plot()",
  Stmt.stmt "delete_downloads()",
  Stmt.stmt "app.new()"]

/-- The statements of the analysis/boundary-condition/solve section of
examples/01_basic/valve.py, lines 175-206, in order.  Each
`GetObjectsByName(...)[0]` lookup raises when the name query returns an empty
list. -/
def valve_bc_stmts : List Stmt := [
  Stmt.stmt "analysis = model.AddStaticStructuralAnalysis()",
  Stmt.stmt "fixed_support = analysis.AddFixedSupport()",
  Stmt.stmt "fixed_support.Location = GetObjectsByName(NSFixedSupportFaces)[0]",
  Stmt.stmt "frictionless_support = analysis.AddFrictionlessSupport()",
  Stmt.stmt
    "frictionless_support.Location = GetObjectsByName(NSFrictionlessSupportFaces)[0]",
  Stmt.stmt "pressure = analysis.AddPressure()",
  Stmt.stmt "pressure.Location = GetObjectsByName(NSInsideFaces)[0]",
  Stmt.stmt "pressure.Magnitude.Inputs[0].DiscreteValues = [0 s, 1 s]",
  Stmt.stmt "pressure.Magnitude.Output.DiscreteValues = [0 Pa, 15 MPa]",
  Stmt.stmt "analysis.Activate()",
  Stmt.stmt "set_camera_and_display_image(boundary_conditions.png)",
  Stmt.stmt "solution = analysis.Solution",
  Stmt.stmt "deformation = solution.AddTotalDeformation()",
  Stmt.stmt "stress = solution.AddEquivalentStress()",
  Stmt.stmt "solution.Solve(True)"]

/-- The number of Python `try` statements in each of the 26 example scripts:
none anywhere — no download, lookup or API call is wrapped in an exception
handler, and the only compound statements the scripts use are `if`, `for`
and function definitions (no retry loops or fallbacks around calls). -/
def tryStatementCounts : List (String × Nat) := [
  ("examples/00_tips/tips_01.py", 0),
  ("examples/00_tips/tips_02.py", 0),
  ("examples/00_tips/tips_03.py", 0),
  ("examples/00_tips/tips_04.py", 0),
  ("examples/00_tips/tips_05.py", 0),
  ("examples/01_basic/harmonic_acoustics.py", 0),
  ("examples/01_basic/modal_acoustics_analysis.py", 0),
  ("examples/01_basic/steady_state_thermal_analysis.py", 0),
  ("examples/01_basic/topology_optimization_cantilever_beam.py", 0),
  ("examples/01_basic/valve.py", 0),
  ("examples/02_technology_showcase/Rotor_Blade_Inverse_solve.py", 0),
  ("examples/02_technology_showcase/conact_wear_simulation.py", 0),
  ("examples/02_technology_showcase/contact_wear_simulation.py", 0),
  ("examples/02_technology_showcase/non_linear_analsis_rubber_boot_seal.py", 0),
  ("examples/02_technology_showcase/prestressed_modal_cyclic_symmetry_analysis.py", 0),
  ("examples/02_technology_showcase/shape_optimization_bracket_model.py", 0),
  ("examples/basic/LSDyna_analysis.py", 0),
  ("examples/basic/bolt_pretension.py", 0),
  ("examples/basic/contact_debonding.py", 0),
  ("examples/basic/fracture_analysis_contact_debonding.py", 0),
  ("examples/basic/modal_acoustics.py", 0),
  ("examples/basic/steady_state_thermal_analysis.py", 0),
  ("examples/basic/topology_optimization_cantilever.py", 0),
  ("examples/basic/topology_optimization_cantilever_beam.py", 0),
  ("examples/basic/valve.py", 0),
  ("examples/technology_showcase/topology_optimization_cantilever.py", 0)]

theorem runScript_aborts_aux (raises : String → Bool) (l : String)
    (post : List Stmt) :
    ∀ pre : List Stmt, noHandlers (pre ++ Stmt.stmt l :: post) = true →
    (∀ m : String, Stmt.stmt m ∈ pre → raises m = false) →
    raises l = true →
    runScript raises (pre ++ Stmt.stmt l :: post) = Option.some l := by
  intro pre
  induction pre with
  | nil =>
    intro _ _ hl
    simp [runScript, hl]
  | cons s pre' ih =>
    intro hnh hpre hl
    cases s with
    | stmt m =>
      have hm : raises m = false := hpre m (by simp)
      rw [List.cons_append, runScript]
      simp only [hm, if_false]
      exact ih (by simpa [noHandlers] using hnh)
        (fun m' hm' => hpre m' (by simp [hm'])) hl
    | tryExcept b h =>
      rw [List.cons_append] at hnh
      simp [noHandlers] at hnh

/-- C5: every failure other than a failed solve-status assert propagates
unhandled and aborts the script.  No example script contains a try/except
(the per-script `try`-statement counts are all zero, and the embedded
tips_01.py and valve.py statement sequences contain no handler), and in the
execution semantics, whenever any statement of a handler-free script raises
(missing fixture at a download, IndexError at an unguarded
`GetObjectsByName(...)[0]` lookup, bad API call, version mismatch at `App`)
while the statements before it succeed, the script run aborts with exactly
that exception: there is no retry, recovery or fallback. -/
theorem unhandled_exception_aborts :
    (∀ p ∈ tryStatementCounts, p.2 = 0) ∧
    noHandlers tips_01_stmts = true ∧
    noHandlers valve_bc_stmts = true ∧
    (∀ (raises : String → Bool) (pre : List Stmt) (l : String) (post : List Stmt),
      noHandlers (pre ++ Stmt.stmt l :: post) = true →
      (∀ m : String, Stmt.stmt m ∈ pre → raises m = false) →
      raises l = true →
      runScript raises (pre ++ Stmt.stmt l :: post) = Option.some l) := by
  refine ⟨by decide, by decide, by decide, ?_⟩
  intro raises pre l post hnh hpre hl
  exact runScript_aborts_aux raises l post pre hnh hpre hl

/-- Witness for C5: in tips_01.py, when the fixture download raises (the
fixture is missing) and the statements before it succeed, the script aborts
with the download's exception. -/
theorem unhandled_exception_aborts_witness :
    runScript
      (fun m => m == "geometry_path = download_file(Valve.pmdb, pymechanical, embedding)")
      tips_01_stmts =
      Option.some "geometry_path = download_file(Valve.pmdb, pymechanical, embedding)" := by
  have h := unhandled_exception_aborts.2.2.2
    (fun m => m == "geometry_path = download_file(Valve.pmdb, pymechanical, embedding)")
    [Stmt.stmt "app = App(globals=globals())", Stmt.stmt "print(app)"]
    "geometry_path = download_file(Valve.pmdb, pymechanical, embedding)"
    [Stmt.stmt "model = app.Model",
     Stmt.stmt "geometry_import = model.GeometryImportGroup.AddGeometryImport()",
     Stmt.stmt "geometry_import.Import(geometry_path)",
     Stmt.stmt "app.plot()",
     Stmt.stmt "delete_downloads()",
     Stmt.stmt "app.new()"]
    (by decide)
    (by
      intro m hm
      simp only [List.mem_cons, List.not_mem_nil, or_false] at hm
      rcases hm with hm | hm <;>
        simp_all)
    (by decide)
  exact h
